import Mathlib

/-!
Verification development for the RTIC application in `src/main.rs` of the
`nucleo-f401re-rtic-vl53l1x-uld` repository: an STM32F401RE firmware that
feeds an independent hardware watchdog from a high-priority periodic task
while a low-priority task drives a VL53L1X time-of-flight sensor through
its configure/measure protocol over I2C.

The embedding below models each RTIC task body as the event trace it
produces, parameterised by the results of the fallible driver calls and by
the scheduler's answer to each spawn request.  The VL53L1X driver crate and
the RTIC-generated executor are external collaborators (not part of
`src/`); where their behaviour decides a claim it is modelled from the
specification and marked as such in the doc comment.
-/

namespace NucleoTof

/-- The two software tasks declared in src/main.rs: `poll_tof`
(lines 139-155, priority 1) and `periodic` (lines 158-164, priority 5). -/
inductive TaskId
  | pollTof
  | periodic
deriving DecidableEq

/-- Task priorities taken from the `#[task(priority=...)]` attributes:
`poll_tof` has priority 1, `periodic` has priority 5. -/
def priority : TaskId → Nat
  | .pollTof => 1
  | .periodic => 5

/-- The watchdog supervisor task is `periodic`. -/
def watchdogTask : TaskId := TaskId.periodic

/-- The sensor state-machine tasks: only `poll_tof` drives the sensor. -/
def sensorTasks : List TaskId := [TaskId.pollTof]

/-- Modelled from the spec: the preemption rule of the executor (a task of
priority p may be preempted only by a task of priority strictly greater
than p).  `canPreempt a b` means a may preempt b. -/
def canPreempt (a b : TaskId) : Bool :=
  decide (priority b < priority a)

/-- Peripheral handles of the application: the delay provider (the only
`#[shared]` resource, lines 34-37), the watchdog handle and the TOFSensor
bundle (the `#[local]` resources, lines 39-43). -/
inductive Resource
  | delayProvider
  | watchdogHandle
  | tofSensorHandle
deriving DecidableEq

/-- The `UserRoi` rectangle passed to `vl53l1::set_user_roi`; fields in
declaration order: bot_right_x, bot_right_y, top_left_x, top_left_y. -/
structure UserRoi where
  bot_right_x : Nat
  bot_right_y : Nat
  top_left_x : Nat
  top_left_y : Nat
deriving DecidableEq

/-- The opaque VL53L1X driver operations invoked by src/main.rs, named
after the `vl53l1` crate functions. -/
inductive SensorOp
  | softwareReset
  | dataInit
  | staticInit
  | setUserRoi (roi : UserRoi)
  | setTimingBudgetMicroSeconds (us : Nat)
  | setInterMeasurementPeriodMilliSeconds (ms : Nat)
  | startMeasurement
  | waitMeasurementDataReady
  | getRangingMeasurementData
  | clearInterruptAndStartMeasurement
deriving DecidableEq

/-- Watchdog timeout passed to `watchdog.start` at src/main.rs line 84, in
milliseconds. -/
def watchdogTimeoutMs : Nat := 500

/-- Re-schedule period of the `periodic` task (line 163), in milliseconds. -/
def periodicPeriodMs : Nat := 100

/-- Re-schedule interval of the `poll_tof` task (line 154, `1.secs()`), in
milliseconds. -/
def pollIntervalMs : Nat := 1000

/-- Timing budget passed at src/main.rs line 120, in microseconds. -/
def timingBudgetMicroSeconds : Nat := 50000

/-- Inter-measurement period passed at line 121, in milliseconds. -/
def interMeasurementPeriodMilliSeconds : Nat := 60

/-- The region-of-interest rectangle constructed at lines 110-115:
bot_right_x = 10, bot_right_y = 6, top_left_x = 6, top_left_y = 10. -/
def theUserRoi : UserRoi := ⟨10, 6, 6, 10⟩

/-- The sequence of VL53L1X driver operations issued by `setup_tof`
(src/main.rs lines 92-135), in source order.  The `defmt` log statements
are diagnostics only and are omitted. -/
def setup_tof_ops : List SensorOp :=
  [ SensorOp.softwareReset,
    SensorOp.dataInit,
    SensorOp.staticInit,
    SensorOp.setUserRoi theUserRoi,
    SensorOp.setTimingBudgetMicroSeconds timingBudgetMicroSeconds,
    SensorOp.setInterMeasurementPeriodMilliSeconds interMeasurementPeriodMilliSeconds,
    SensorOp.startMeasurement,
    SensorOp.waitMeasurementDataReady ]

/-- The seven-step initialization sequence exactly as the specification
words it: software reset, device-data init, static init,
region-of-interest, timing budget, inter-measurement period,
start-measurement. -/
def claimed_init_seq : List SensorOp :=
  [ SensorOp.softwareReset,
    SensorOp.dataInit,
    SensorOp.staticInit,
    SensorOp.setUserRoi theUserRoi,
    SensorOp.setTimingBudgetMicroSeconds timingBudgetMicroSeconds,
    SensorOp.setInterMeasurementPeriodMilliSeconds interMeasurementPeriodMilliSeconds,
    SensorOp.startMeasurement ]

/-- Modelled from the spec: the sensor lifecycle states.  The intermediate
states resetDone/dataInited refine the multi-step Uninitialized→Configured
phase, and roiSet/budgetSet refine Configured→Armed; configured, roiSet and
budgetSet are all "Configured" at the spec's granularity. -/
inductive SMState
  | uninitialized
  | resetDone
  | dataInited
  | configured
  | roiSet
  | budgetSet
  | armed
  | measuring
  | dataReady
deriving DecidableEq

/-- Modelled from the spec: the sensor state-machine transitions over the
opaque driver operations (the `vl53l1` driver itself is an external
collaborator and not part of this repository).  The ROI step is optional,
so the timing budget may be set either directly from configured or after
the ROI; a successful wait-for-data-ready detects Measuring→DataReady; the
combined clear-and-restart call returns DataReady→Measuring.  `none` means
the specification defines no transition for that operation in that state. -/
def smStep : SMState → SensorOp → Option SMState
  | SMState.uninitialized, SensorOp.softwareReset => some SMState.resetDone
  | SMState.resetDone, SensorOp.dataInit => some SMState.dataInited
  | SMState.dataInited, SensorOp.staticInit => some SMState.configured
  | SMState.configured, SensorOp.setUserRoi _ => some SMState.roiSet
  | SMState.configured, SensorOp.setTimingBudgetMicroSeconds _ => some SMState.budgetSet
  | SMState.roiSet, SensorOp.setTimingBudgetMicroSeconds _ => some SMState.budgetSet
  | SMState.budgetSet, SensorOp.setInterMeasurementPeriodMilliSeconds _ => some SMState.armed
  | SMState.armed, SensorOp.startMeasurement => some SMState.measuring
  | SMState.measuring, SensorOp.waitMeasurementDataReady => some SMState.dataReady
  | SMState.dataReady, SensorOp.getRangingMeasurementData => some SMState.dataReady
  | SMState.dataReady, SensorOp.clearInterruptAndStartMeasurement => some SMState.measuring
  | _, _ => none

/-- Run a sequence of driver operations through the spec state machine,
assuming every operation succeeds. -/
def smRun (s : SMState) : List SensorOp → Option SMState
  | [] => some s
  | o :: os =>
    match smStep s o with
    | some s2 => smRun s2 os
    | none => none

/-- Failures of the driver's bus boundary: an I2C transaction fault, or the
bounded wait-for-data-ready exhausting its budget with no data ready. -/
inductive BusError
  | i2cFault
  | timeout
deriving DecidableEq

/-- The ranging result returned by `get_ranging_measurement_data`; only the
`range_milli_meter` field is consumed by src/main.rs (line 151). -/
structure RangingMeasurementData where
  range_milli_meter : Int
deriving DecidableEq

/-- Observable events of the application: watchdog operations, lock
operations on the shared delay provider, driver operations, spawn /
spawn_after requests to the scheduler (afterMs = 0 for an immediate
`spawn`), and a panic (via `unwrap` on an Err, with the `panic_halt`
handler: the core halts and nothing further executes until the hardware
watchdog resets the chip). -/
inductive Event
  | watchdogStart (timeoutMs : Nat)
  | feed
  | lockAcquire
  | lockRelease
  | op (o : SensorOp)
  | spawnReq (t : TaskId) (afterMs : Nat)
  | panicked
deriving DecidableEq

/-- True exactly on driver-operation events. -/
def Event.isSensorOp : Event → Bool
  | Event.op _ => true
  | _ => false

/-- The value returned by the RTIC `spawn` / `spawn_after` APIs: Ok when
the request was enqueued, Err when the ready queue was full.  Modelled
from the spec: the generated executor is not part of `src/`. -/
def spawnResult (enqueued : Bool) : Except Unit Unit :=
  if enqueued then Except.ok () else Except.error ()

/-- `Result::ok()` as applied at every spawn call site in src/main.rs
(lines 64, 86, 154 and 163): converts the Result into an Option,
discarding any error. -/
def resultOk : Except Unit Unit → Option Unit
  | Except.ok a => some a
  | Except.error _ => none

/-- Event trace of `setup_watchdog` (src/main.rs lines 82-89): start the
independent watchdog with a 500 ms timeout, feed it once, then request the
`periodic` task; the spawn result is discarded with `.ok()`. -/
def setup_watchdog (enq : Bool) : List Event :=
  [Event.watchdogStart watchdogTimeoutMs, Event.feed] ++
    (let _discarded := resultOk (spawnResult enq)
     [Event.spawnReq TaskId.periodic 0])

/-- Event trace of one activation of the `periodic` watchdog-feeding task
(src/main.rs lines 158-164): feed the watchdog, then request itself again
after 100 ms, discarding the spawn result with `.ok()`. -/
def periodic (enq : Bool) : List Event :=
  Event.feed ::
    (let _discarded := resultOk (spawnResult enq)
     [Event.spawnReq TaskId.periodic periodicPeriodMs])

/-- Event trace of one activation of `poll_tof` (src/main.rs lines
139-155), as a function of the results of the three fallible driver calls
made inside the `delay` lock.  Each call is unwrapped, so an Err makes the
task panic inside the critical section: no cycle is skipped, no release
and no re-schedule request follow.  On success the lock is released at the
end of the closure and the task requests itself again after 1 s,
discarding the spawn result with `.ok()`. -/
def poll_tof (w : Except BusError Unit) (g : Except BusError RangingMeasurementData)
    (c : Except BusError Unit) (enq : Bool) : List Event :=
  Event.lockAcquire :: Event.op SensorOp.waitMeasurementDataReady ::
    (match w with
     | Except.error _ => [Event.panicked]
     | Except.ok _ =>
       Event.op SensorOp.getRangingMeasurementData ::
         (match g with
          | Except.error _ => [Event.panicked]
          | Except.ok _ =>
            Event.op SensorOp.clearInterruptAndStartMeasurement ::
              (match c with
               | Except.error _ => [Event.panicked]
               | Except.ok _ =>
                 Event.lockRelease ::
                   (let _discarded := resultOk (spawnResult enq)
                    [Event.spawnReq TaskId.pollTof pollIntervalMs]))))

/-- The trace of a fully successful `poll_tof` activation. -/
def pollSuccessTrace : List Event :=
  [ Event.lockAcquire,
    Event.op SensorOp.waitMeasurementDataReady,
    Event.op SensorOp.getRangingMeasurementData,
    Event.op SensorOp.clearInterruptAndStartMeasurement,
    Event.lockRelease,
    Event.spawnReq TaskId.pollTof pollIntervalMs ]

/-- Event trace of `init` (src/main.rs lines 45-74): clock and I2C pin
bring-up are out-of-scope hardware plumbing; the watchdog is set up first,
then the TOF sensor, then `poll_tof` is requested (spawn result discarded
with `.ok()`). -/
def init_trace (enqPeriodic enqPoll : Bool) : List Event :=
  setup_watchdog enqPeriodic ++ setup_tof_ops.map Event.op ++
    (let _discarded := resultOk (spawnResult enqPoll)
     [Event.spawnReq TaskId.pollTof 0])

/-- Resources of the `#[shared]` struct (src/main.rs lines 34-37): only
the delay provider. -/
def sharedResources : List Resource := [Resource.delayProvider]

/-- Task-local resources from the `#[task(local=[...])]` attributes:
`poll_tof` exclusively owns the TOFSensor bundle (the struct at lines
29-32, holding both the device handle and the I2C bus), `periodic`
exclusively owns the watchdog handle. -/
def taskLocal : TaskId → List Resource
  | .pollTof => [Resource.tofSensorHandle]
  | .periodic => [Resource.watchdogHandle]

/-- Shared resources each task may lock, from the `#[task(shared=[...])]`
attributes: only `poll_tof` locks the delay provider. -/
def taskShared : TaskId → List Resource
  | .pollTof => [Resource.delayProvider]
  | .periodic => []

/-- A task can reach the sensor device and its I2C bus only through the
TOFSensor handle, locally owned or shared. -/
def canAccessSensorBus (t : TaskId) : Bool :=
  (taskLocal t).contains Resource.tofSensorHandle ||
    (taskShared t).contains Resource.tofSensorHandle

/-- C1: a bus failure in any of the three steady-state driver calls of
`poll_tof` (waiting for data ready, reading the ranging result, or the
combined clear-and-restart) makes the task panic inside the lock, because
each call's result is unwrapped: the cycle is not logged-and-skipped, no
re-schedule request is ever issued, and the measurement loop is dead until
the hardware watchdog resets the system — contrary to the claimed
non-fatal log-skip-continue policy. -/
theorem poll_tof_unwrap_aborts_on_bus_fault :
    poll_tof (Except.error BusError.i2cFault) (Except.ok ⟨87⟩) (Except.ok ()) true =
      [Event.lockAcquire, Event.op SensorOp.waitMeasurementDataReady, Event.panicked] ∧
    poll_tof (Except.ok ()) (Except.error BusError.i2cFault) (Except.ok ()) true =
      [Event.lockAcquire, Event.op SensorOp.waitMeasurementDataReady,
       Event.op SensorOp.getRangingMeasurementData, Event.panicked] ∧
    poll_tof (Except.ok ()) (Except.ok ⟨87⟩) (Except.error BusError.i2cFault) true =
      [Event.lockAcquire, Event.op SensorOp.waitMeasurementDataReady,
       Event.op SensorOp.getRangingMeasurementData,
       Event.op SensorOp.clearInterruptAndStartMeasurement, Event.panicked] ∧
    (poll_tof (Except.error BusError.i2cFault) (Except.ok ⟨87⟩) (Except.ok ()) true).count
      (Event.spawnReq TaskId.pollTof pollIntervalMs) = 0 :=
  ⟨rfl, rfl, rfl, by decide⟩

/-- C2: `setup_watchdog` starts the watchdog with a fixed 500 ms timeout
(within the stated 500-1000 ms range) and immediately performs exactly one
feed; the `periodic` task feeds the watchdog and re-requests itself every
100 ms, which equals timeout/5 and lies within [timeout/5, timeout/2]. -/
theorem watchdog_setup_and_cadence :
    setup_watchdog true =
      [Event.watchdogStart watchdogTimeoutMs, Event.feed, Event.spawnReq TaskId.periodic 0] ∧
    setup_watchdog false =
      [Event.watchdogStart watchdogTimeoutMs, Event.feed, Event.spawnReq TaskId.periodic 0] ∧
    (setup_watchdog true).count Event.feed = 1 ∧
    watchdogTimeoutMs = 500 ∧
    500 ≤ watchdogTimeoutMs ∧ watchdogTimeoutMs ≤ 1000 ∧
    periodic true = [Event.feed, Event.spawnReq TaskId.periodic periodicPeriodMs] ∧
    periodic false = [Event.feed, Event.spawnReq TaskId.periodic periodicPeriodMs] ∧
    periodicPeriodMs = 100 ∧
    periodicPeriodMs = watchdogTimeoutMs / 5 ∧
    watchdogTimeoutMs / 5 ≤ periodicPeriodMs ∧ 2 * periodicPeriodMs ≤ watchdogTimeoutMs :=
  ⟨rfl, rfl, by decide, rfl, by decide, by decide, rfl, rfl, rfl, by decide, by decide, by decide⟩

/-- C3 counterexample: `setup_tof` does not apply exactly the seven claimed
configuration steps — it additionally performs a blocking
wait-for-data-ready after start-measurement — and running its full
operation sequence from Uninitialized through the spec state machine does
not end in Measuring. -/
theorem setup_tof_not_exactly_claimed_seq :
    setup_tof_ops ≠ claimed_init_seq ∧
    smRun SMState.uninitialized setup_tof_ops ≠ some SMState.measuring := by
  decide

/-- C3 amended: `setup_tof` issues the claimed seven-step sequence (reset,
data-init, static-init, ROI, timing budget, inter-measurement period,
start-measurement) in exactly that order, followed by one additional
blocking wait-for-data-ready; the seven-step sequence alone
deterministically reaches Measuring, and the full `setup_tof` sequence
continues deterministically to DataReady. -/
theorem setup_tof_sequence :
    setup_tof_ops = claimed_init_seq ++ [SensorOp.waitMeasurementDataReady] ∧
    smRun SMState.uninitialized claimed_init_seq = some SMState.measuring ∧
    smRun SMState.uninitialized setup_tof_ops = some SMState.dataReady :=
  ⟨rfl, rfl, rfl⟩

/-- C4: the watchdog supervisor task (`periodic`, priority 5) has strictly
greater priority than every sensor state-machine task (`poll_tof`,
priority 1); by the executor's preemption rule the supervisor can preempt
every sensor task and no sensor task can ever preempt the supervisor, so a
feed is never starved by sensor activity. -/
theorem watchdog_priority_dominates :
    ∀ t ∈ sensorTasks,
      priority t < priority watchdogTask ∧
        canPreempt watchdogTask t = true ∧ canPreempt t watchdogTask = false := by
  decide

/-- Witness for C4 at the concrete sensor task `poll_tof`. -/
theorem watchdog_priority_dominates_witness :
    priority TaskId.pollTof < priority watchdogTask ∧
      canPreempt watchdogTask TaskId.pollTof = true ∧
      canPreempt TaskId.pollTof watchdogTask = false :=
  watchdog_priority_dominates TaskId.pollTof (by decide)

/-- C5: every spawn / spawn_after call site in src/main.rs discards the
scheduler's answer via `.ok()`: the caller's entire observable trace —
feeds, driver operations, lock events, further requests — is identical
whether or not the request could be enqueued, and a queue-full error is
converted to `none` rather than propagated to the caller. -/
theorem spawn_fail_soft :
    (∀ w g c, poll_tof w g c true = poll_tof w g c false) ∧
    periodic true = periodic false ∧
    setup_watchdog true = setup_watchdog false ∧
    (∀ e₁ e₂, init_trace e₁ e₂ = init_trace true true) ∧
    resultOk (spawnResult false) = none ∧
    resultOk (spawnResult true) = some () :=
  ⟨fun w g c => by cases w <;> cases g <;> cases c <;> rfl,
   rfl, rfl,
   fun e₁ e₂ => by cases e₁ <;> cases e₂ <;> rfl,
   rfl, rfl⟩

/-- Witness for C5 at a concrete activation of `poll_tof`. -/
theorem spawn_fail_soft_witness :
    poll_tof (Except.ok ()) (Except.ok ⟨87⟩) (Except.ok ()) true =
      poll_tof (Except.ok ()) (Except.ok ⟨87⟩) (Except.ok ()) false :=
  spawn_fail_soft.1 (Except.ok ()) (Except.ok ⟨87⟩) (Except.ok ())

/-- C6: in every successful activation of `poll_tof` the whole
wait-for-ready, read-result, clear-and-restart sequence happens between a
single acquisition of the shared-delay lock and its single release, and
the release strictly precedes the re-schedule request, so no shared
resource is held across the re-schedule boundary. -/
theorem poll_tof_critical_section :
    (∀ (g : RangingMeasurementData) (enq : Bool),
      poll_tof (Except.ok ()) (Except.ok g) (Except.ok ()) enq = pollSuccessTrace) ∧
    pollSuccessTrace.count Event.lockAcquire = 1 ∧
    pollSuccessTrace.count Event.lockRelease = 1 ∧
    pollSuccessTrace.indexOf Event.lockAcquire <
      pollSuccessTrace.indexOf (Event.op SensorOp.getRangingMeasurementData) ∧
    pollSuccessTrace.indexOf (Event.op SensorOp.getRangingMeasurementData) <
      pollSuccessTrace.indexOf (Event.op SensorOp.clearInterruptAndStartMeasurement) ∧
    pollSuccessTrace.indexOf (Event.op SensorOp.clearInterruptAndStartMeasurement) <
      pollSuccessTrace.indexOf Event.lockRelease ∧
    pollSuccessTrace.indexOf Event.lockRelease <
      pollSuccessTrace.indexOf (Event.spawnReq TaskId.pollTof pollIntervalMs) :=
  ⟨fun g enq => rfl, by decide, by decide, by decide, by decide, by decide, by decide⟩

/-- Witness for C6 at a concrete successful activation. -/
theorem poll_tof_critical_section_witness :
    poll_tof (Except.ok ()) (Except.ok ⟨87⟩) (Except.ok ()) true = pollSuccessTrace :=
  poll_tof_critical_section.1 ⟨87⟩ true

/-- C7: on success `poll_tof` does request itself again after 1000 ms (the
fixed 1-second cadence) and it does issue a bounded wait-for-ready query;
but when that bounded wait finds no data ready within its bound (a timeout
Err), the task panics via `unwrap` instead of re-scheduling and retrying
on the next tick — the claimed not-ready-is-not-an-error path does not
exist in the code. -/
theorem poll_tof_panics_when_not_ready :
    poll_tof (Except.error BusError.timeout) (Except.ok ⟨87⟩) (Except.ok ()) true =
      [Event.lockAcquire, Event.op SensorOp.waitMeasurementDataReady, Event.panicked] ∧
    (poll_tof (Except.error BusError.timeout) (Except.ok ⟨87⟩) (Except.ok ()) true).count
      (Event.spawnReq TaskId.pollTof pollIntervalMs) = 0 ∧
    pollIntervalMs = 1000 ∧
    (poll_tof (Except.ok ()) (Except.ok ⟨87⟩) (Except.ok ()) true).getLast? =
      some (Event.spawnReq TaskId.pollTof pollIntervalMs) :=
  ⟨rfl, by decide, rfl, by decide⟩

/-- C8: `setup_tof` sets a timing budget of 50000 microseconds and an
inter-measurement period of 60 milliseconds = 60000 microseconds, so the
configured period is greater than or equal to the configured budget. -/
theorem budget_le_period :
    SensorOp.setTimingBudgetMicroSeconds timingBudgetMicroSeconds ∈ setup_tof_ops ∧
    SensorOp.setInterMeasurementPeriodMilliSeconds interMeasurementPeriodMilliSeconds ∈
      setup_tof_ops ∧
    timingBudgetMicroSeconds = 50000 ∧
    interMeasurementPeriodMilliSeconds = 60 ∧
    timingBudgetMicroSeconds ≤ interMeasurementPeriodMilliSeconds * 1000 := by
  decide

/-- C9: the only `#[shared]` resource is the delay provider; the TOFSensor
bundle (device handle plus I2C bus) is a `#[local]` resource of `poll_tof`
alone, so `poll_tof` is the only task able to perform a sensor bus
transaction, and that exclusivity needs no lock on the bus itself. -/
theorem sensor_bus_exclusivity :
    sharedResources = [Resource.delayProvider] ∧
    taskLocal TaskId.pollTof = [Resource.tofSensorHandle] ∧
    (∀ t : TaskId, canAccessSensorBus t = true ↔ t = TaskId.pollTof) :=
  ⟨rfl, rfl, fun t => by cases t <;> decide⟩

/-- Witness for C9 at the concrete task `periodic`, which cannot access the
sensor bus. -/
theorem sensor_bus_exclusivity_witness :
    canAccessSensorBus TaskId.periodic = false :=
  Bool.not_eq_true (canAccessSensorBus TaskId.periodic) |>.mp
    (fun h => TaskId.noConfusion ((sensor_bus_exclusivity.2.2 TaskId.periodic).mp h))

/-- C10: the init trace contains exactly one watchdog feed (issued inside
`setup_watchdog`, right after the 500 ms window is started and before any
sensor operation); every sensor bring-up operation occurs after that feed;
and the periodic feeder is merely requested during init, so the whole
bring-up lies between the single initial feed and the first periodic feed.
The counts hold for every queue outcome of the two init-time spawn
requests. -/
theorem single_feed_during_init :
    (init_trace true true).count Event.feed = 1 ∧
    (init_trace false false).count Event.feed = 1 ∧
    ((init_trace true true).takeWhile (fun e => e != Event.feed)).all
      (fun e => !(Event.isSensorOp e)) = true ∧
    (init_trace true true).filter Event.isSensorOp = setup_tof_ops.map Event.op ∧
    (init_trace true true).indexOf (Event.watchdogStart watchdogTimeoutMs) <
      (init_trace true true).indexOf Event.feed ∧
    (init_trace true true).indexOf Event.feed <
      (init_trace true true).indexOf (Event.op SensorOp.softwareReset) ∧
    Event.spawnReq TaskId.periodic 0 ∈ init_trace true true ∧
    Event.spawnReq TaskId.pollTof 0 ∈ init_trace true true := by
  decide

end NucleoTof
